import Mathlib

/-!
Shallow embedding of src/src-tauri/src/commands.rs (Personal-Data-Dashboard).

The file models the Python-script execution commands: interpreter candidate
resolution, script-path preflight validation, the execution engine and the
two orchestrator entry points.  OS interaction (filesystem metadata, process
spawning, waiting, stream draining) is modelled by explicit oracle records
(FileSystem, ExecWorld, a probe function) supplied as parameters: the pure
control flow and data assembly are translated line by line from the source.
-/

deriving instance DecidableEq for Except

namespace PDD

/-- Rust str::trim: remove leading and trailing whitespace characters. -/
def rustTrim (s : String) : String :=
  String.mk (((s.data.dropWhile Char.isWhitespace).reverse.dropWhile Char.isWhitespace).reverse)

/-- Splitting a character list on the path separator, accumulator form. -/
def splitSlashAux : List Char → List Char → List (List Char)
  | [], acc => [acc.reverse]
  | c :: rest, acc =>
    if c = '/' then acc.reverse :: splitSlashAux rest []
    else splitSlashAux rest (c :: acc)

/-- Components of a path string separated by the Unix separator. -/
def splitOnSlash (cs : List Char) : List (List Char) :=
  splitSlashAux cs []

/-- Rust Path::file_name (Unix): the final normal component of the path.
Empty components and "." components are normalized away; a path whose last
component is ".." has no file name. -/
def fileNameChars (p : String) : Option (List Char) :=
  match ((splitOnSlash p.data).filter (fun c => decide (c ≠ []) && decide (c ≠ ['.']))).getLast? with
  | none => none
  | some c => if c = ['.', '.'] then none else some c

/-- Rust Path::file_name as a String. -/
def fileName (p : String) : Option String :=
  (fileNameChars p).map String.mk

/-- Split a file name at its last dot: some (before, after), or none when the
name has no dot at all. -/
def splitLastDot : List Char → Option (List Char × List Char)
  | [] => none
  | c :: rest =>
    match splitLastDot rest with
    | some (b, a) => some (c :: b, a)
    | none => if c = '.' then some ([], rest) else none

/-- Rust Path::extension (with OsStr-to-str conversion, which in this String
model always succeeds): none when there is no file name, no dot in the file
name, or the file name begins with its only dot (a dotfile such as ".py"). -/
def extensionOf (p : String) : Option String :=
  match fileNameChars p with
  | none => none
  | some name =>
    match splitLastDot name with
    | none => none
    | some (before, after) => if before = [] then none else some (String.mk after)

/-- Rust u64::clamp(lo, hi) for lo <= hi. -/
def rustClamp (x lo hi : Nat) : Nat :=
  if x < lo then lo else if x > hi then hi else x

structure RunPythonScriptRequest where
  script_path : String
  args : List String
  python_path : Option String
  timeout_ms : Option Nat
deriving DecidableEq, Repr

structure RunPythonScriptResponse where
  ok : Bool
  stdout : String
  stderr : String
  exit_code : Option Int
  timed_out : Bool
  duration_ms : Nat
deriving DecidableEq, Repr

structure ValidatePythonScriptRequest where
  script_path : String
  python_path : Option String
deriving DecidableEq, Repr

structure ValidatePythonScriptResponse where
  valid : Bool
  message : Option String
  resolved_python : Option String
deriving DecidableEq, Repr

structure PythonCandidate where
  program : String
  pre_args : List String
  display_name : String
deriving DecidableEq, Repr

/-- The platform default candidate lists: the two cfg(target_os) blocks of
python_candidates, selected by whether the build targets Windows. -/
def default_python_candidates (windows : Bool) : List PythonCandidate :=
  if windows then
    [{ program := "python", pre_args := [], display_name := "python" },
     { program := "py", pre_args := ["-3"], display_name := "py -3" }]
  else
    [{ program := "python3", pre_args := [], display_name := "python3" },
     { program := "python", pre_args := [], display_name := "python" }]

/-- fn python_candidates (lines 46-89): a non-blank explicit python_path
short-circuits to a single candidate wrapping the trimmed string; otherwise
the platform default list. -/
def python_candidates (windows : Bool) (python_path : Option String) : List PythonCandidate :=
  match python_path with
  | some path =>
    let trimmed := rustTrim path
    if trimmed ≠ "" then
      [{ program := trimmed, pre_args := [], display_name := trimmed }]
    else
      default_python_candidates windows
  | none => default_python_candidates windows

/-- Outcome of waiting on a child process: status.success() and status.code(). -/
structure ChildExitStatus where
  success : Bool
  code : Option Int
deriving DecidableEq, Repr

/-- The kinds of std::io::Error the orchestrator distinguishes. -/
inductive ErrorKind
  | notFound
  | permissionDenied
  | otherKind
deriving DecidableEq, Repr

/-- A std::io::Error: its kind and its Display rendering. -/
structure IoErr where
  kind : ErrorKind
  msg : String
deriving DecidableEq, Repr

/-- Configuration of one standard stream of a spawned command. The source
configures stdout and stderr as piped and leaves stdin unset; for spawn, the
std and tokio default for an unset stream is to inherit it from the parent
process. -/
inductive StdioCfg
  | inherit
  | piped
  | nullDev
deriving DecidableEq, Repr

/-- The command built by execute_with_candidate before spawning (lines
115-126): program, then pre_args, then the script path, then the request
args, with both output streams piped and stdin left at its default. -/
structure CommandSpec where
  program : String
  cmd_args : List String
  stdin_cfg : StdioCfg
  stdout_cfg : StdioCfg
  stderr_cfg : StdioCfg
deriving DecidableEq, Repr

def build_command (request : RunPythonScriptRequest) (candidate : PythonCandidate) : CommandSpec :=
  { program := candidate.program
    cmd_args := candidate.pre_args ++ [request.script_path] ++ request.args
    stdin_cfg := StdioCfg.inherit
    stdout_cfg := StdioCfg.piped
    stderr_cfg := StdioCfg.piped }

/-- Oracle for the OS-level nondeterminism of one execute_with_candidate call:
whether spawning the given command succeeds, whether child.wait() wins the
race against the timeout, the results of the two possible waits, the results
of the two drain tasks (none models a task join failure, which the source
replaces by an empty buffer; the UTF-8-lossy decoding of the drained bytes is
abstracted to the resulting text), and the measured elapsed milliseconds. -/
structure ExecWorld where
  spawn : CommandSpec → Except IoErr Unit
  firstWaitCompletes : Bool
  firstWait : Except IoErr ChildExitStatus
  killWait : Except IoErr ChildExitStatus
  stdoutJoin : Option (Except IoErr String)
  stderrJoin : Option (Except IoErr String)
  elapsed_ms : Nat

/-- The exit status the engine ends up using: the first wait's when it beat
the timeout, otherwise the wait performed after the kill. -/
def effectiveStatus (w : ExecWorld) : Except IoErr ChildExitStatus :=
  if w.firstWaitCompletes then w.firstWait else w.killWait

/-- fn execute_with_candidate, lines 108-170. The timeout duration only
influences which side of the tokio::time::timeout race wins, which the
oracle's firstWaitCompletes field records, so it is not otherwise consumed. -/
def execute_with_candidate (request : RunPythonScriptRequest) (_timeout_ms : Nat)
    (candidate : PythonCandidate) (w : ExecWorld) :
    Except IoErr RunPythonScriptResponse := do
  let _ ← w.spawn (build_command request candidate)
  let (timed_out, status) ←
    (if w.firstWaitCompletes then
      match w.firstWait with
      | Except.ok s => Except.ok (false, s)
      | Except.error e => Except.error e
    else
      match w.killWait with
      | Except.ok s => Except.ok (true, s)
      | Except.error e => Except.error e : Except IoErr (Bool × ChildExitStatus))
  let stdout ← w.stdoutJoin.getD (Except.ok "")
  let stderr ← w.stderrJoin.getD (Except.ok "")
  Except.ok
    { ok := !timed_out && status.success
      stdout := stdout
      stderr := stderr
      exit_code := status.code
      timed_out := timed_out
      duration_ms := w.elapsed_ms }

/-- Filesystem metadata oracle: Path::exists and Path::is_file. -/
structure FileSystem where
  pathExists : String → Bool
  isFile : String → Bool

/-- fn validate_script_path, lines 172-191. -/
def validate_script_path (fs : FileSystem) (script_path : String) : Except String Unit :=
  if rustTrim script_path = "" then
    Except.error "script_path is required"
  else if !(fs.pathExists script_path) then
    Except.error ("script file not found: " ++ script_path)
  else if !(fs.isFile script_path) then
    Except.error ("script path is not a file: " ++ script_path)
  else if extensionOf script_path ≠ some "py" then
    Except.error "script must be a .py file"
  else
    Except.ok ()

/-- Line 199: request.timeout_ms.unwrap_or(10_000).clamp(1_000, 120_000). -/
def effective_timeout_ms (timeout_ms : Option Nat) : Nat :=
  rustClamp (timeout_ms.getD 10000) 1000 120000

/-- The candidate loop of run_python_script (lines 204-223), with the mutable
last_error threaded as an argument. -/
def run_candidates (request : RunPythonScriptRequest) (timeout_ms : Nat)
    (world : PythonCandidate → ExecWorld) :
    List PythonCandidate → Option String → Except String RunPythonScriptResponse
  | [], last_error =>
    Except.error (last_error.getD "failed to find available python interpreter")
  | candidate :: rest, last_error =>
    match execute_with_candidate request timeout_ms candidate (world candidate) with
    | Except.ok response => Except.ok response
    | Except.error error =>
      if error.kind = ErrorKind.notFound then
        run_candidates request timeout_ms world rest
          (some ("python interpreter not found: " ++ candidate.display_name))
      else
        Except.error
          ("failed to execute script with " ++ candidate.display_name ++ ": " ++ error.msg)

/-- fn run_python_script, lines 193-224. -/
def run_python_script (windows : Bool) (fs : FileSystem)
    (world : PythonCandidate → ExecWorld) (request : RunPythonScriptRequest) :
    Except String RunPythonScriptResponse :=
  match validate_script_path fs request.script_path with
  | Except.error e => Except.error e
  | Except.ok _ =>
    let timeout_ms := effective_timeout_ms request.timeout_ms
    let candidates := python_candidates windows request.python_path
    run_candidates request timeout_ms world candidates none

/-- fn is_candidate_available, lines 91-106: probing a candidate runs
"program pre_args... --version" and reports whether it spawned and exited
successfully; the probe oracle supplies that invocation's result. -/
def is_candidate_available (probe : PythonCandidate → Except IoErr ChildExitStatus)
    (candidate : PythonCandidate) : Bool :=
  match probe candidate with
  | Except.ok status => status.success
  | Except.error _ => false

/-- The candidate loop of validate_python_script (lines 239-247): the first
available candidate, in order. -/
def first_available (probe : PythonCandidate → Except IoErr ChildExitStatus) :
    List PythonCandidate → Option PythonCandidate
  | [] => none
  | candidate :: rest =>
    if is_candidate_available probe candidate then some candidate
    else first_available probe rest

/-- fn validate_python_script, lines 226-254. -/
def validate_python_script (windows : Bool) (fs : FileSystem)
    (probe : PythonCandidate → Except IoErr ChildExitStatus)
    (request : ValidatePythonScriptRequest) :
    Except String ValidatePythonScriptResponse :=
  match validate_script_path fs request.script_path with
  | Except.error message =>
    Except.ok { valid := false, message := some message, resolved_python := none }
  | Except.ok _ =>
    match first_available probe (python_candidates windows request.python_path) with
    | some candidate =>
      Except.ok
        { valid := true
          message := some "script and interpreter are valid"
          resolved_python := some candidate.display_name }
    | none =>
      Except.ok
        { valid := false
          message := some "python interpreter is not available"
          resolved_python := none }

/-- Concrete oracle for witnesses: a successful, in-time execution. -/
def okWorld : ExecWorld :=
  { spawn := fun _ => Except.ok ()
    firstWaitCompletes := true
    firstWait := Except.ok { success := true, code := some 0 }
    killWait := Except.ok { success := false, code := none }
    stdoutJoin := some (Except.ok "hello")
    stderrJoin := some (Except.ok "")
    elapsed_ms := 12 }

/-- Concrete request for witnesses. -/
def reqW : RunPythonScriptRequest :=
  { script_path := "a.py", args := [], python_path := none, timeout_ms := none }

/-- Concrete candidate for witnesses. -/
def candW : PythonCandidate :=
  { program := "python3", pre_args := [], display_name := "python3" }

/-- The response okWorld produces for witnesses. -/
def respW : RunPythonScriptResponse :=
  { ok := true, stdout := "hello", stderr := "", exit_code := some 0
    timed_out := false, duration_ms := 12 }

/-- The exit status okWorld reports for witnesses. -/
def statW : ChildExitStatus := { success := true, code := some 0 }

/-- Concrete oracle for witnesses: a fully-permissive filesystem. -/
def fsTrue : FileSystem := { pathExists := fun _ => true, isFile := fun _ => true }

/-- Concrete oracle for witnesses: every spawn fails with a not-found error. -/
def nfWorld : ExecWorld :=
  { spawn := fun _ => Except.error { kind := ErrorKind.notFound, msg := "os error 2" }
    firstWaitCompletes := true
    firstWait := Except.ok { success := false, code := none }
    killWait := Except.ok { success := false, code := none }
    stdoutJoin := none
    stderrJoin := none
    elapsed_ms := 0 }

/-- Helper: a successful first_available search splits the list at the first
available candidate, all earlier candidates being unavailable. -/
theorem first_available_eq_some (probe : PythonCandidate → Except IoErr ChildExitStatus)
    (cs : List PythonCandidate) (c : PythonCandidate)
    (h : first_available probe cs = some c) :
    ∃ l₁ l₂, cs = l₁ ++ c :: l₂ ∧ is_candidate_available probe c = true
      ∧ ∀ x ∈ l₁, is_candidate_available probe x = false := by
  induction cs generalizing c with
  | nil => simp [first_available] at h
  | cons d rest ih =>
    unfold first_available at h
    by_cases hd : is_candidate_available probe d = true
    · rw [if_pos hd] at h
      obtain rfl : d = c := by injection h
      exact ⟨[], rest, rfl, hd, by simp⟩
    · rw [if_neg hd] at h
      obtain ⟨l₁, l₂, rfl, hc, hall⟩ := ih c h
      refine ⟨d :: l₁, l₂, rfl, hc, ?_⟩
      intro x hx
      rcases List.mem_cons.mp hx with rfl | hx2
      · simpa using hd
      · exact hall x hx2

/-- Helper: when every candidate in the list fails with a not-found error,
the run loop ends with the diagnostic of the last candidate. -/
theorem run_candidates_all_not_found (request : RunPythonScriptRequest) (tm : Nat)
    (world : PythonCandidate → ExecWorld) :
    ∀ (cs : List PythonCandidate) (le : Option String) (c : PythonCandidate),
      (∀ x ∈ cs, ∃ e, execute_with_candidate request tm x (world x) = Except.error e
        ∧ e.kind = ErrorKind.notFound) →
      cs.getLast? = some c →
      run_candidates request tm world cs le =
        Except.error ("python interpreter not found: " ++ c.display_name)
  | [], le, c, _, hlast => by simp at hlast
  | d :: rest, le, c, hall, hlast => by
    obtain ⟨e, he, hk⟩ := hall d (by simp)
    unfold run_candidates
    rw [he]
    simp only [hk, if_pos]
    cases rest with
    | nil =>
      obtain rfl : d = c := by simpa using hlast
      simp [run_candidates]
    | cons r1 rest2 =>
      exact run_candidates_all_not_found request tm world (r1 :: rest2) _ c
        (fun x hx => hall x (List.mem_cons_of_mem _ hx))
        (by simpa [List.getLast?_cons_cons] using hlast)

/-- Helper: a character of a component produced by splitSlashAux comes from
the input or from the accumulator. -/
theorem mem_splitSlashAux {a : Char} :
    ∀ (cs acc x : List Char), x ∈ splitSlashAux cs acc → a ∈ x → a ∈ cs ∨ a ∈ acc
  | [], acc, x, hx, ha => by
    simp only [splitSlashAux, List.mem_singleton] at hx
    subst hx
    right
    simpa using ha
  | c :: rest, acc, x, hx, ha => by
    unfold splitSlashAux at hx
    by_cases hc : c = '/'
    · rw [if_pos hc] at hx
      rcases List.mem_cons.mp hx with rfl | hx2
      · right
        simpa using ha
      · rcases mem_splitSlashAux rest [] x hx2 ha with h | h
        · exact Or.inl (List.mem_cons_of_mem _ h)
        · simp at h
    · rw [if_neg hc] at hx
      rcases mem_splitSlashAux rest (c :: acc) x hx ha with h | h
      · exact Or.inl (List.mem_cons_of_mem _ h)
      · rcases List.mem_cons.mp h with rfl | h2
        · exact Or.inl (List.mem_cons_self _ _)
        · exact Or.inr h2

/-- Helper: a character of a path component is a character of the path. -/
theorem mem_of_mem_splitOnSlash {a : Char} {cs x : List Char}
    (hx : x ∈ splitOnSlash cs) (ha : a ∈ x) : a ∈ cs := by
  rcases mem_splitSlashAux cs [] x hx ha with h | h
  · exact h
  · simp at h

/-- Helper: a string containing a non-whitespace character does not trim to
the empty string. -/
theorem rustTrim_ne_empty {p : String} {a : Char}
    (ha : a ∈ p.data) (hw : a.isWhitespace = false) : rustTrim p ≠ "" := by
  intro h
  have hdata :
      ((p.data.dropWhile Char.isWhitespace).reverse.dropWhile Char.isWhitespace).reverse = [] := by
    have h2 := congrArg String.data h
    simpa [rustTrim] using h2
  rw [List.reverse_eq_nil_iff] at hdata
  have h3 : ∀ x ∈ p.data.dropWhile Char.isWhitespace, Char.isWhitespace x = true := by
    intro x hx
    exact List.dropWhile_eq_nil_iff.mp hdata x (List.mem_reverse.mpr hx)
  have h4 : ∀ x ∈ p.data, Char.isWhitespace x = true := by
    intro x hx
    rw [← List.takeWhile_append_dropWhile Char.isWhitespace p.data] at hx
    rcases List.mem_append.mp hx with h5 | h5
    · exact List.mem_takeWhile_imp h5
    · exact h3 x h5
  rw [h4 a ha] at hw
  exact Bool.noConfusion hw

/-- Helper: a path whose file name is ".py" contains a dot. -/
theorem dot_mem_of_fileNameChars_dotpy {p : String}
    (h : fileNameChars p = some ['.', 'p', 'y']) : '.' ∈ p.data := by
  unfold fileNameChars at h
  rcases hg : ((splitOnSlash p.data).filter
      (fun c => decide (c ≠ []) && decide (c ≠ ['.']))).getLast? with _ | c
  · rw [hg] at h
    simp at h
  · rw [hg] at h
    by_cases hc : c = ['.', '.']
    · simp [hc] at h
    · simp only [hc] at h
      simp at h
      obtain rfl : c = ['.', 'p', 'y'] := h
      have hmem := List.mem_of_mem_getLast? hg
      have hmem2 := List.mem_of_mem_filter hmem
      exact mem_of_mem_splitOnSlash hmem2 (by simp)

/-- Helper: a file name of exactly ".py" yields no extension. -/
theorem extensionOf_eq_none_of_dotpy {p : String}
    (h : fileNameChars p = some ['.', 'p', 'y']) : extensionOf p = none := by
  unfold extensionOf
  rw [h]
  decide

/-- Claim C1: for every outcome the execution engine produces, the ok field
is true exactly when timed_out is false and the exit status the engine used
indicates success; in particular a timed-out outcome never has ok true. -/
theorem ok_invariant_c1 (request : RunPythonScriptRequest) (tm : Nat)
    (candidate : PythonCandidate) (w : ExecWorld) (r : RunPythonScriptResponse)
    (s : ChildExitStatus)
    (hr : execute_with_candidate request tm candidate w = Except.ok r)
    (hs : effectiveStatus w = Except.ok s) :
    r.ok = (!r.timed_out && s.success) ∧ (r.timed_out = true → r.ok = false) := by
  unfold execute_with_candidate at hr
  unfold effectiveStatus at hs
  rcases hsp : w.spawn (build_command request candidate) with e | u <;>
    rcases hfc : w.firstWaitCompletes with _ | _ <;>
    rcases hfw : w.firstWait with e1 | st1 <;>
    rcases hkw : w.killWait with e2 | st2 <;>
    rcases hoj : w.stdoutJoin with _ | (e3 | v3) <;>
    rcases hej : w.stderrJoin with _ | (e4 | v4) <;>
    simp_all [Bind.bind, Except.bind, Option.getD] <;>
    (subst hr; simp)

/-- Witness for C1 at a concrete in-time successful execution. -/
theorem ok_invariant_c1_witness :
    execute_with_candidate reqW 10000 candW okWorld = Except.ok respW
    ∧ effectiveStatus okWorld = Except.ok statW
    ∧ respW.ok = (!respW.timed_out && statW.success)
    ∧ (respW.timed_out = true → respW.ok = false) := by
  refine ⟨rfl, rfl, ?_⟩
  exact ok_invariant_c1 reqW 10000 candW okWorld respW statW rfl rfl

/-- Claim C3: for a run request that passes preflight, the orchestrator tries
the resolved candidates in order with the clamped timeout: an engine outcome
is returned immediately; a not-found error records a diagnostic and moves on;
any other error fails the whole call with a formatted message at once; an
empty candidate list fails with the last recorded diagnostic or the generic
no-interpreter message; and when every candidate fails with not-found, the
call fails with the last candidate's not-found diagnostic. -/
theorem run_orchestration_c3 (windows : Bool) (fs : FileSystem)
    (world : PythonCandidate → ExecWorld) (request : RunPythonScriptRequest)
    (hv : validate_script_path fs request.script_path = Except.ok ()) :
    run_python_script windows fs world request =
      run_candidates request (effective_timeout_ms request.timeout_ms) world
        (python_candidates windows request.python_path) none
    ∧ (∀ tm le candidate rest r,
        execute_with_candidate request tm candidate (world candidate) = Except.ok r →
        run_candidates request tm world (candidate :: rest) le = Except.ok r)
    ∧ (∀ tm le candidate rest e,
        execute_with_candidate request tm candidate (world candidate) = Except.error e →
        e.kind = ErrorKind.notFound →
        run_candidates request tm world (candidate :: rest) le =
          run_candidates request tm world rest
            (some ("python interpreter not found: " ++ candidate.display_name)))
    ∧ (∀ tm le candidate rest e,
        execute_with_candidate request tm candidate (world candidate) = Except.error e →
        e.kind ≠ ErrorKind.notFound →
        run_candidates request tm world (candidate :: rest) le =
          Except.error
            ("failed to execute script with " ++ candidate.display_name ++ ": " ++ e.msg))
    ∧ (∀ tm le, run_candidates request tm world [] le =
        Except.error (le.getD "failed to find available python interpreter"))
    ∧ (∀ tm cs le c,
        (∀ x ∈ cs, ∃ e, execute_with_candidate request tm x (world x) = Except.error e
          ∧ e.kind = ErrorKind.notFound) →
        cs.getLast? = some c →
        run_candidates request tm world cs le =
          Except.error ("python interpreter not found: " ++ c.display_name)) := by
  refine ⟨?_, ?_, ?_, ?_, ?_, ?_⟩
  · unfold run_python_script
    rw [hv]
  · intro tm le candidate rest r hok
    unfold run_candidates
    rw [hok]
  · intro tm le candidate rest e he hk
    simp only [run_candidates]
    rw [he]
    simp [hk]
  · intro tm le candidate rest e he hk
    simp only [run_candidates]
    rw [he]
    simp [hk]
  · intro tm le
    simp [run_candidates]
  · intro tm cs le c hall hlast
    exact run_candidates_all_not_found request tm world cs le c hall hlast

/-- Witness for C3: a concrete request that passes preflight, run against a
world whose spawns all fail with not-found. -/
theorem run_orchestration_c3_witness :
    validate_script_path fsTrue "a.py" = Except.ok ()
    ∧ run_python_script false fsTrue (fun _ => nfWorld) reqW =
        run_candidates reqW (effective_timeout_ms reqW.timeout_ms) (fun _ => nfWorld)
          (python_candidates false reqW.python_path) none :=
  ⟨by decide, (run_orchestration_c3 false fsTrue (fun _ => nfWorld) reqW (by decide)).1⟩

/-- Claim C4 counterexample: with no override, the Windows candidate list does
not put the versioned launcher "py -3" first; its display names are
["python", "py -3"], not ["py -3", "python"]. -/
theorem default_candidates_c4_counterexample :
    (python_candidates true none).map (fun c => c.display_name) ≠ ["py -3", "python"] := by
  decide

/-- Claim C4 as amended: for an absent or blank override, the resolver
returns the fixed platform default list with the bare name "python" first and
the versioned launcher "py -3" second on Windows, and "python3" then "python"
elsewhere; both lists have length at least 1. -/
theorem default_candidates_c4 (python_path : Option String)
    (h : python_path = none ∨ ∃ s, python_path = some s ∧ rustTrim s = "") :
    python_candidates true python_path =
      [{ program := "python", pre_args := [], display_name := "python" },
       { program := "py", pre_args := ["-3"], display_name := "py -3" }]
    ∧ python_candidates false python_path =
      [{ program := "python3", pre_args := [], display_name := "python3" },
       { program := "python", pre_args := [], display_name := "python" }]
    ∧ 1 ≤ (python_candidates true python_path).length
    ∧ 1 ≤ (python_candidates false python_path).length := by
  obtain rfl | ⟨s, rfl, hs⟩ := h
  · simp [python_candidates, default_python_candidates]
  · simp [python_candidates, default_python_candidates, hs]

/-- Witness for C4 as amended, at the absent override. -/
theorem default_candidates_c4_witness :
    ((none : Option String) = none ∨ ∃ s, (none : Option String) = some s ∧ rustTrim s = "")
    ∧ (python_candidates true none =
        [{ program := "python", pre_args := [], display_name := "python" },
         { program := "py", pre_args := ["-3"], display_name := "py -3" }]
      ∧ python_candidates false none =
        [{ program := "python3", pre_args := [], display_name := "python3" },
         { program := "python", pre_args := [], display_name := "python" }]
      ∧ 1 ≤ (python_candidates true none).length
      ∧ 1 ≤ (python_candidates false none).length) :=
  ⟨Or.inl rfl, default_candidates_c4 none (Or.inl rfl)⟩

/-- Claim C5 counterexample: the engine leaves standard input at its default
configuration, which for spawn means inherited from the parent process, not
disconnected or connected to an empty or closed source. -/
theorem spawn_stdin_c5_counterexample :
    (build_command
        { script_path := "a.py", args := ["x"], python_path := none, timeout_ms := none }
        { program := "python3", pre_args := [], display_name := "python3" }).stdin_cfg
        = StdioCfg.inherit
    ∧ StdioCfg.inherit ≠ StdioCfg.nullDev := by
  exact ⟨rfl, by decide⟩

/-- Claim C5 as amended: the engine spawns the child as candidate.program
candidate.preArgs... scriptPath args... with standard output and standard
error each connected to a readable pipe, while standard input is left at its
default configuration (inherited from the parent), and a spawn error is
propagated as the engine's failure. -/
theorem spawn_command_shape_c5 (request : RunPythonScriptRequest)
    (candidate : PythonCandidate) (tm : Nat) (w : ExecWorld) :
    build_command request candidate =
      { program := candidate.program
        cmd_args := candidate.pre_args ++ [request.script_path] ++ request.args
        stdin_cfg := StdioCfg.inherit
        stdout_cfg := StdioCfg.piped
        stderr_cfg := StdioCfg.piped }
    ∧ (∀ e, w.spawn (build_command request candidate) = Except.error e →
        execute_with_candidate request tm candidate w = Except.error e) := by
  refine ⟨rfl, ?_⟩
  intro e he
  simp [execute_with_candidate, he, Bind.bind, Except.bind]

/-- Claim C6: the effective timeout is the requested one clamped into
[1000, 120000] milliseconds, 10000 when absent; 0 behaves as 1000 and 999999
behaves as 120000. -/
theorem timeout_clamp_c6 :
    effective_timeout_ms none = 10000
    ∧ (∀ n : Nat, effective_timeout_ms (some n) = min (max n 1000) 120000)
    ∧ effective_timeout_ms (some 0) = 1000
    ∧ effective_timeout_ms (some 999999) = 120000 := by
  refine ⟨rfl, ?_, by decide, by decide⟩
  intro n
  unfold effective_timeout_ms rustClamp
  simp only [Option.getD]
  split_ifs <;> omega

/-- Claim C7: the preflight validator checks, in order and short-circuiting,
blank path, nonexistent path, existing non-file, and extension differing from
the exact string "py", each with its specific message, and succeeds with no
error when all four checks pass. -/
theorem preflight_order_c7 (fs : FileSystem) (p : String) :
    (rustTrim p = "" → validate_script_path fs p = Except.error "script_path is required")
    ∧ (rustTrim p ≠ "" → fs.pathExists p = false →
        validate_script_path fs p = Except.error ("script file not found: " ++ p))
    ∧ (rustTrim p ≠ "" → fs.pathExists p = true → fs.isFile p = false →
        validate_script_path fs p = Except.error ("script path is not a file: " ++ p))
    ∧ (rustTrim p ≠ "" → fs.pathExists p = true → fs.isFile p = true →
        extensionOf p ≠ some "py" →
        validate_script_path fs p = Except.error "script must be a .py file")
    ∧ (rustTrim p ≠ "" → fs.pathExists p = true → fs.isFile p = true →
        extensionOf p = some "py" →
        validate_script_path fs p = Except.ok ()) := by
  unfold validate_script_path
  refine ⟨?_, ?_, ?_, ?_, ?_⟩ <;> intros <;> simp_all

/-- Claim C8: a validate call always returns an in-band outcome whose message
field is present; a preflight failure is reported as a non-valid outcome
carrying the preflight message and no resolved interpreter; interpreter
unavailability after a passing preflight is reported as a non-valid outcome
with the fixed message; the resolved interpreter is present exactly when the
outcome is valid; and a valid outcome means preflight passed and names the
display name of the first available candidate in resolution order. -/
theorem validate_inband_c8 (windows : Bool) (fs : FileSystem)
    (probe : PythonCandidate → Except IoErr ChildExitStatus)
    (request : ValidatePythonScriptRequest) :
    ∃ r, validate_python_script windows fs probe request = Except.ok r
      ∧ r.message.isSome = true
      ∧ (r.resolved_python.isSome = true ↔ r.valid = true)
      ∧ (∀ m, validate_script_path fs request.script_path = Except.error m →
          r.valid = false ∧ r.message = some m ∧ r.resolved_python = none)
      ∧ (validate_script_path fs request.script_path = Except.ok () →
          first_available probe (python_candidates windows request.python_path) = none →
          r.valid = false ∧ r.message = some "python interpreter is not available"
            ∧ r.resolved_python = none)
      ∧ (r.valid = true →
          validate_script_path fs request.script_path = Except.ok ()
          ∧ ∃ l₁ c l₂, python_candidates windows request.python_path = l₁ ++ c :: l₂
            ∧ is_candidate_available probe c = true
            ∧ (∀ x ∈ l₁, is_candidate_available probe x = false)
            ∧ r.resolved_python = some c.display_name) := by
  unfold validate_python_script
  cases hv : validate_script_path fs request.script_path with
  | error m =>
    refine ⟨_, rfl, by simp, by simp, ?_, ?_, by simp⟩
    · intro m2 hm2
      injection hm2 with h
      subst h
      exact ⟨rfl, rfl, rfl⟩
    · intro hok
      exact Except.noConfusion hok
  | ok u =>
    cases u
    cases hfa : first_available probe (python_candidates windows request.python_path) with
    | none =>
      refine ⟨_, rfl, by simp, by simp, ?_, ?_, by simp⟩
      · intro m2 hm2
        exact Except.noConfusion hm2
      · intro _ _
        exact ⟨rfl, rfl, rfl⟩
    | some c =>
      refine ⟨_, rfl, by simp, by simp, ?_, ?_, ?_⟩
      · intro m2 hm2
        exact Except.noConfusion hm2
      · intro _ hnone
        exact Option.noConfusion hnone
      · intro _
        refine ⟨rfl, ?_⟩
        obtain ⟨l₁, l₂, hcs, hc, hall⟩ := first_available_eq_some probe _ c hfa
        exact ⟨l₁, c, l₂, hcs, hc, hall, rfl⟩

/-- Claim C9: a non-blank explicit interpreter override resolves to exactly
one candidate whose program and display name are the trimmed override and
whose pre-arguments are empty. -/
theorem explicit_override_single_candidate_c9 (windows : Bool) (s : String)
    (h : rustTrim s ≠ "") :
    python_candidates windows (some s) =
      [{ program := rustTrim s, pre_args := [], display_name := rustTrim s }] := by
  unfold python_candidates
  simp [h]

/-- Witness for C9 at the override "/custom/python". -/
theorem explicit_override_single_candidate_c9_witness :
    rustTrim "/custom/python" ≠ ""
    ∧ python_candidates false (some "/custom/python") =
        [{ program := "/custom/python", pre_args := [], display_name := "/custom/python" }] := by
  refine ⟨by decide, ?_⟩
  rw [explicit_override_single_candidate_c9 false "/custom/python" (by decide)]
  decide

/-- Claim C10: a path whose final component is exactly ".py" has no extension
in the Rust sense, so preflight rejects it with the wrong-extension message
even when the path exists and is a regular file. -/
theorem dotfile_rejected_c10 (fs : FileSystem) (p : String)
    (hn : fileName p = some ".py") (he : fs.pathExists p = true) (hf : fs.isFile p = true) :
    validate_script_path fs p = Except.error "script must be a .py file" := by
  have hnc : fileNameChars p = some ['.', 'p', 'y'] := by
    unfold fileName at hn
    rcases hg : fileNameChars p with _ | c
    · rw [hg] at hn
      simp at hn
    · rw [hg] at hn
      have hmk : String.mk c = ".py" := by
        simpa using hn
      have hc : c = ['.', 'p', 'y'] := by
        have h2 := congrArg String.data hmk
        simpa using h2
      rw [hc]
  have hdot : '.' ∈ p.data := dot_mem_of_fileNameChars_dotpy hnc
  have htrim : rustTrim p ≠ "" := rustTrim_ne_empty hdot (by decide)
  have hext : extensionOf p = none := extensionOf_eq_none_of_dotpy hnc
  unfold validate_script_path
  rw [if_neg htrim]
  simp [he, hf, hext]

/-- Witness for C10 at the bare dotfile path ".py" on a permissive
filesystem. -/
theorem dotfile_rejected_c10_witness :
    fileName ".py" = some ".py"
    ∧ fsTrue.pathExists ".py" = true
    ∧ fsTrue.isFile ".py" = true
    ∧ validate_script_path fsTrue ".py" = Except.error "script must be a .py file" :=
  ⟨by decide, rfl, rfl, dotfile_rejected_c10 fsTrue ".py" (by decide) rfl rfl⟩

end PDD
